import Mathlib

/-!
Verification of the Aggregation-and-Analysis Orchestrator of the marine
biodiversity dashboard: the `OBISGeminiService` class (OBIS + Gemini
integration service) together with `GeminiApiService.generateContent`
(`src/services/geminiApi.ts`).

The embedding is shallow: the two remote HTTP services (the OBIS
biodiversity data service and the Gemini text-generation service) are
modelled as an oracle (`Env`) mapping each request to the response the
wire would deliver; every service method becomes a function from that
oracle to a pair of (a) an `Except`-value mirroring the promise outcome
(fulfilled value or thrown `Error`) and (b) the ordered list of network
calls the method issued.  JavaScript runtime details that matter to the
claims are modelled explicitly:

* occurrence records arrive as parsed JSON objects, so a record is a
  `Json` value (ordered fields, arbitrary keys) and `JSON.stringify(x,
  null, 2)` is reproduced by `jsonStringifyPretty`;
* `OBISGeminiService` declares two methods named `analyzeDatasetWithAI`
  (line 93: public, taking a dataset-id string; line 214: private,
  taking a dataset object).  Class bodies assign methods to the
  prototype in order, so the later definition replaces the earlier one:
  the method actually reachable at runtime is the line-214 body, and
  callers (`Datasets.tsx` line 121) invoke it with a raw string.  The
  runtime method is embedded as `analyzeDatasetWithAI` over a
  `DatasetArg` (string or dataset object, with JS property access
  yielding `undefined` on the string); the dead line-93 body is kept as
  `analyzeDatasetWithAI_shadowed`;
* falsy-or-default interpolations (`x || 'Unknown'`) treat `undefined`,
  the empty string and `0` as falsy.
-/

/-- A JSON value as parsed by `response.json()`: field order is the wire
order and arbitrary keys are preserved.  Number values carry the decimal
text JavaScript would print for them. -/
inductive Json where
  | null : Json
  | bool (b : Bool) : Json
  | num (lit : String) : Json
  | str (s : String) : Json
  | arr (elems : List Json) : Json
  | obj (fields : List (String × Json)) : Json
deriving Repr

/-- Lower-case hexadecimal digit, as used by `JSON.stringify` for
control-character escapes. -/
def hexDigit (n : Nat) : Char :=
  if n < 10 then Char.ofNat (48 + n) else Char.ofNat (87 + n)

/-- Escape of one character inside a JSON string literal, following
`JSON.stringify`. -/
def escChar (c : Char) : String :=
  if c = '"' then "\\\""
  else if c = '\\' then "\\\\"
  else if c = '\n' then "\\n"
  else if c = '\r' then "\\r"
  else if c = '\t' then "\\t"
  else if c.toNat = 8 then "\\b"
  else if c.toNat = 12 then "\\f"
  else if c.toNat < 32 then "\\u00" ++ String.mk [hexDigit (c.toNat / 16), hexDigit (c.toNat % 16)]
  else String.mk [c]

/-- JSON string literal (quoted, escaped). -/
def quoteStr (s : String) : String :=
  "\"" ++ String.join (s.data.map escChar) ++ "\""

/-- Indentation produced by `JSON.stringify(v, null, 2)` at nesting
depth `d`. -/
def indentStr (d : Nat) : String :=
  String.mk (List.replicate (2 * d) ' ')

mutual

/-- `JSON.stringify(v, null, 2)` at nesting depth `d`. -/
def stringifyAt (d : Nat) : Json → String
  | .null => "null"
  | .bool b => if b then "true" else "false"
  | .num lit => lit
  | .str s => quoteStr s
  | .arr [] => "[]"
  | .arr (x :: xs) =>
    "[\n" ++ arrItems (d + 1) (x :: xs) ++ "\n" ++ indentStr d ++ "]"
  | .obj [] => "\x7b\x7d"
  | .obj (f :: fs) =>
    "\x7b\n" ++ objItems (d + 1) (f :: fs) ++ "\n" ++ indentStr d ++ "\x7d"

/-- Comma-and-newline separated array items, each on its own indented
line. -/
def arrItems (d : Nat) : List Json → String
  | [] => ""
  | [x] => indentStr d ++ stringifyAt d x
  | x :: y :: xs => indentStr d ++ stringifyAt d x ++ ",\n" ++ arrItems d (y :: xs)

/-- Comma-and-newline separated object fields, each on its own indented
line. -/
def objItems (d : Nat) : List (String × Json) → String
  | [] => ""
  | [(k, v)] => indentStr d ++ quoteStr k ++ ": " ++ stringifyAt d v
  | (k, v) :: g :: fs =>
    indentStr d ++ quoteStr k ++ ": " ++ stringifyAt d v ++ ",\n" ++ objItems d (g :: fs)

end

/-- Top-level `JSON.stringify(v, null, 2)`. -/
def jsonStringifyPretty (v : Json) : String := stringifyAt 0 v

/-- Parsed response of the OBIS occurrence endpoint (interface
`OBISResponse` in the source): total count, page of occurrence records
(each an opaque parsed-JSON object), limit and offset. -/
structure OBISResponse where
  total : Nat
  results : List Json
  limit : Nat
  offset : Nat
deriving Repr

/-- The parsed occurrence-response object viewed as the JSON value the
wire delivered, with the four fields declared by the `OBISResponse`
interface. -/
def OBISResponse.toJson (r : OBISResponse) : Json :=
  .obj [("total", .num (toString r.total)),
        ("results", .arr r.results),
        ("limit", .num (toString r.limit)),
        ("offset", .num (toString r.offset))]

/-- Spatial/temporal extent of a dataset (interface `OBISDataset.extent`). -/
structure OBISExtent where
  spatial : Option String
  temporal : Option String
deriving Repr

/-- Dataset metadata (interface `OBISDataset`). -/
structure OBISDataset where
  id : String
  title : String
  description : Option String
  citation : Option String
  license : Option String
  records : Option Nat
  extent : Option OBISExtent
deriving Repr

/-- The five per-aspect narratives (field `insights` of
`EnhancedMarineAnalysis`). -/
structure Insights where
  species_diversity : String
  geographic_distribution : String
  conservation_status : String
  ecological_significance : String
  threats_and_recommendations : String
deriving Repr

/-- The `obis_data` field of `EnhancedMarineAnalysis` holds either an
occurrence response or a dataset descriptor. -/
inductive ObisPayload where
  | response (r : OBISResponse) : ObisPayload
  | dataset (d : OBISDataset) : ObisPayload
deriving Repr

/-- The structured result interface `EnhancedMarineAnalysis`. -/
structure EnhancedMarineAnalysis where
  obis_data : ObisPayload
  ai_analysis : String
  insights : Insights
  summary : String
deriving Repr

/-- A thrown JavaScript `Error`, identified by its message. -/
structure JsError where
  message : String
deriving Repr, DecidableEq

/-- One outbound network call, as observed on the mocked transport. -/
inductive NetCall where
  | obisOccurrence (scientificName geometry : Option String) (limit : Nat) : NetCall
  | obisDataset (datasetId : String) : NetCall
  | gemini (prompt : String) : NetCall
deriving Repr, DecidableEq

/-- Response of the OBIS occurrence endpoint: parsed body on HTTP
success, status and status text otherwise. -/
inductive OccResult where
  | ok (r : OBISResponse) : OccResult
  | httpError (status : Nat) (statusText : String) : OccResult

/-- Response of the OBIS dataset endpoint. -/
inductive DsResult where
  | ok (d : OBISDataset) : DsResult
  | httpError (status : Nat) (statusText : String) : DsResult

/-- Response of the Gemini `generateContent` endpoint: on HTTP success
the list of candidates (each represented by its first part text), on
HTTP error the `error.message` field of the error payload (absent when
the payload lacks it). -/
inductive GemResult where
  | ok (candidates : List String) : GemResult
  | httpError (message : Option String) : GemResult

/-- The network oracle: what the wire answers to each possible request. -/
structure Env where
  occ : Option String → Option String → Nat → OccResult
  ds : String → DsResult
  gem : String → GemResult

/-- Outcome of one service method: the settled promise (fulfilled value
or thrown error) together with the network calls issued, in order. -/
def Res (α : Type) : Type := Except JsError α × List NetCall

/-- Sequencing of two steps (`await a; continuation`): a thrown error
short-circuits, traces concatenate. -/
def bindR {α β : Type} (x : Res α) (f : α → Res β) : Res β :=
  match x with
  | (.ok a, t) => ((f a).1, t ++ (f a).2)
  | (.error e, t) => (.error e, t)

/-- A step that resolves immediately with no network call. -/
def pureR {α : Type} (a : α) : Res α := (.ok a, [])

/-- A `try/catch` block that rethrows
`new Error(wrap + (error instanceof Error ? error.message : 'Unknown error'))`;
every throw in the embedded code is an `Error`, so the message branch is
always taken. -/
def catchWrap {α : Type} (wrap : String) (x : Res α) : Res α :=
  match x with
  | (.ok a, t) => (.ok a, t)
  | (.error e, t) => (.error ⟨wrap ++ e.message⟩, t)

/-- JavaScript `x || dflt` for a possibly-undefined string interpolated
into a template: `undefined` and the empty string are falsy. -/
def strFalsyOr (o : Option String) (dflt : String) : String :=
  match o with
  | some s => if s = "" then dflt else s
  | none => dflt

/-- JavaScript `x || dflt` for a possibly-undefined number: `undefined`
and `0` are falsy; a truthy number is printed in decimal. -/
def natFalsyOr (o : Option Nat) (dflt : String) : String :=
  match o with
  | some n => if n = 0 then dflt else toString n
  | none => dflt

/-- Direct template interpolation of a possibly-undefined string
(`undefined` prints as "undefined"). -/
def jsUndef (o : Option String) : String :=
  match o with
  | some s => s
  | none => "undefined"

/-- Direct template interpolation of a possibly-undefined number. -/
def jsUndefNat (o : Option Nat) : String :=
  match o with
  | some n => toString n
  | none => "undefined"

/-- `GeminiApiService.generateContent` (geminiApi.ts lines 27-66): the
API-key guard runs synchronously before the fetch; on HTTP error the
thrown message wraps `errorData.error?.message || 'Unknown error'`; an
empty candidate list is an error; otherwise the first candidate text is
returned. -/
def generateContent (key : String) (env : Env) (prompt : String) : Res String :=
  if key = "" ∨ key = "your-api-key-here" then
    (.error ⟨"Please set your Gemini API key in the environment variables"⟩, [])
  else
    match env.gem prompt with
    | .httpError m =>
      (.error ⟨"Gemini API Error: " ++ strFalsyOr m "Unknown error"⟩, [.gemini prompt])
    | .ok [] => (.error ⟨"No response generated from Gemini API"⟩, [.gemini prompt])
    | .ok (t :: _) => (.ok t, [.gemini prompt])

/-- `OBISGeminiService.fetchOBISSpecies` (lines 151-175): one GET on the
occurrence endpoint with the given name/geometry filters and limit; a
non-ok status throws `OBIS API error: status statusText`. -/
def fetchOBISSpecies (env : Env) (scientificName geometry : Option String)
    (limit : Nat) : Res OBISResponse :=
  match env.occ scientificName geometry limit with
  | .ok r => (.ok r, [.obisOccurrence scientificName geometry limit])
  | .httpError st stx =>
    (.error ⟨"OBIS API error: " ++ toString st ++ " " ++ stx⟩,
     [.obisOccurrence scientificName geometry limit])

/-- `OBISGeminiService.fetchOBISDataset` (lines 177-185). -/
def fetchOBISDataset (env : Env) (datasetId : String) : Res OBISDataset :=
  match env.ds datasetId with
  | .ok d => (.ok d, [.obisDataset datasetId])
  | .httpError st stx =>
    (.error ⟨"OBIS Dataset API error: " ++ toString st ++ " " ++ stx⟩,
     [.obisDataset datasetId])

/-- Prompt template of `analyzeSpeciesDataWithAI` (lines 191-209): the
overall-narrative prompt over the first five retrieved records. -/
def analyzeSpeciesDataPrompt (data : OBISResponse) (scientificName : Option String) : String :=
  "As a marine biology expert, analyze this OBIS species occurrence data:\n\nQuery: "
  ++ strFalsyOr scientificName "General marine species search"
  ++ "\nTotal records: " ++ toString data.total
  ++ "\nRetrieved records: " ++ toString data.results.length
  ++ "\n\nSample data:\n" ++ jsonStringifyPretty (.arr (data.results.take 5))
  ++ "\n\nPlease provide a comprehensive analysis covering:\n"
  ++ "1. Species diversity and abundance patterns\n"
  ++ "2. Geographic distribution analysis\n"
  ++ "3. Depth and habitat preferences\n"
  ++ "4. Temporal patterns (if available)\n"
  ++ "5. Data quality assessment\n"
  ++ "6. Ecological implications\n"
  ++ "7. Conservation considerations\n\n"
  ++ "Focus on scientifically accurate insights that would be valuable for marine researchers and conservationists."

/-- Serialized ten-record sample shared by the five aspect prompts of
`generateDetailedInsights` (lines 238-269). -/
def insightSample (data : OBISResponse) : String :=
  jsonStringifyPretty (.arr (data.results.take 10))

/-- First aspect prompt of `generateDetailedInsights` (species diversity). -/
def insightDiversityPrompt (data : OBISResponse) : String :=
  "Analyze species diversity patterns from this OBIS data: " ++ insightSample data
  ++ ". Focus on taxonomic diversity, abundance patterns, and biodiversity metrics."

/-- Second aspect prompt (geographic distribution). -/
def insightGeoPrompt (data : OBISResponse) : String :=
  "Analyze geographic distribution patterns from this OBIS data: " ++ insightSample data
  ++ ". Focus on spatial patterns, biogeographic regions, and habitat preferences."

/-- Third aspect prompt (conservation status). -/
def insightConservationPrompt (data : OBISResponse) : String :=
  "Assess conservation implications from this OBIS data: " ++ insightSample data
  ++ ". Focus on conservation status, threats, and protection needs."

/-- Fourth aspect prompt (ecological significance). -/
def insightEcoPrompt (data : OBISResponse) : String :=
  "Explain ecological significance from this OBIS data: " ++ insightSample data
  ++ ". Focus on ecosystem roles, food web interactions, and ecological importance."

/-- Fifth aspect prompt (threats and recommendations). -/
def insightThreatsPrompt (data : OBISResponse) : String :=
  "Identify threats and provide recommendations based on this OBIS data: " ++ insightSample data
  ++ ". Focus on current threats, future risks, and actionable conservation recommendations."

/-- The five aspect prompts of `generateDetailedInsights`, in issue
order. -/
def aspectPrompts (data : OBISResponse) : List String :=
  [insightDiversityPrompt data, insightGeoPrompt data, insightConservationPrompt data,
   insightEcoPrompt data, insightThreatsPrompt data]

/-- Prompt template of `generateSummary` (lines 288-300); `analysis` is
the overall narrative, truncated to its first 500 units. -/
def generateSummaryPrompt (data : OBISResponse) (analysis : String)
    (scientificName : Option String) : String :=
  "Create a concise executive summary of this marine biodiversity analysis:\n\nQuery: "
  ++ strFalsyOr scientificName "Marine species search"
  ++ "\nRecords found: " ++ toString data.total
  ++ "\nAnalysis: " ++ analysis.take 500 ++ "...\n\n"
  ++ "Provide a 2-3 paragraph summary highlighting:\n"
  ++ "1. Key findings about species and biodiversity\n"
  ++ "2. Geographic and ecological patterns\n"
  ++ "3. Most important conservation insights\n"
  ++ "4. Main recommendations for action\n\n"
  ++ "Keep it accessible for both scientists and policy makers."

/-- Prompt template of `getMarineInsightsForRegion` (lines 128-142): the
single combined regional narrative prompt, embedding the whole fetched
occurrence response. -/
def regionPrompt (geometry : String) (description : Option String)
    (regionData : OBISResponse) : String :=
  "Analyze this marine biodiversity data for a specific region:\n\nRegion: "
  ++ strFalsyOr description "Specified coordinates"
  ++ "\nGeometry: " ++ geometry
  ++ "\nSpecies data: " ++ jsonStringifyPretty regionData.toJson
  ++ "\n\nPlease provide comprehensive insights about:\n"
  ++ "1. Biodiversity patterns in this region\n"
  ++ "2. Key species and their ecological roles\n"
  ++ "3. Environmental conditions and habitat characteristics\n"
  ++ "4. Conservation priorities and threats\n"
  ++ "5. Research opportunities and data gaps\n"
  ++ "6. Comparison with global marine biodiversity patterns\n\n"
  ++ "Format your response as a detailed scientific analysis suitable for researchers and conservationists."

/-- The zero-record fallback prompt of `quickSpeciesLookup` (line 332):
general background knowledge, no data sample. -/
def quickFallbackPrompt (scientificName : String) : String :=
  "No OBIS records found for \"" ++ scientificName
  ++ "\". Please provide general information about this species, including habitat, distribution, conservation status, and ecological importance."

/-- The short-summary prompt of `quickSpeciesLookup` (lines 335-343),
referencing the first three fetched records. -/
def quickPrompt (scientificName : String) (data : OBISResponse) : String :=
  "Quick analysis for " ++ scientificName
  ++ ":\nFound " ++ toString data.total ++ " records in OBIS database.\nSample data: "
  ++ jsonStringifyPretty (.arr (data.results.take 3))
  ++ "\n\nProvide a brief (3-4 sentences) summary covering:\n"
  ++ "- Current distribution based on OBIS data\n"
  ++ "- Habitat preferences\n"
  ++ "- Conservation significance\n"
  ++ "- Key ecological role"

/-- The runtime argument of the prototype method `analyzeDatasetWithAI`:
callers pass a raw dataset-id string, the (dead) line-93 body would pass
a dataset object.  JS property access on a string yields `undefined`. -/
inductive DatasetArg where
  | str (s : String) : DatasetArg
  | dataset (d : OBISDataset) : DatasetArg

/-- `arg.title` under JS semantics. -/
def DatasetArg.title : DatasetArg → Option String
  | .dataset d => some d.title
  | .str _ => none

/-- `arg.id` under JS semantics (a string has no `id` property). -/
def DatasetArg.id : DatasetArg → Option String
  | .dataset d => some d.id
  | .str _ => none

/-- `arg.description` under JS semantics. -/
def DatasetArg.description : DatasetArg → Option String
  | .dataset d => d.description
  | .str _ => none

/-- `arg.records` under JS semantics. -/
def DatasetArg.records : DatasetArg → Option Nat
  | .dataset d => d.records
  | .str _ => none

/-- `arg.extent?.spatial` under JS semantics. -/
def DatasetArg.extentSpatial : DatasetArg → Option String
  | .dataset d => (d.extent.bind fun e => e.spatial)
  | .str _ => none

/-- `arg.extent?.temporal` under JS semantics. -/
def DatasetArg.extentTemporal : DatasetArg → Option String
  | .dataset d => (d.extent.bind fun e => e.temporal)
  | .str _ => none

/-- Prompt template of the line-214 `analyzeDatasetWithAI` body (lines
215-233): built from dataset metadata only — no occurrence records
appear anywhere in it. -/
def datasetAnalysisPrompt (a : DatasetArg) : String :=
  "Analyze this OBIS dataset as a marine biology expert:\n\nDataset: "
  ++ jsUndef a.title
  ++ "\nID: " ++ jsUndef a.id
  ++ "\nDescription: " ++ strFalsyOr a.description "No description available"
  ++ "\nRecords: " ++ natFalsyOr a.records "Unknown"
  ++ "\nSpatial extent: " ++ strFalsyOr a.extentSpatial "Not specified"
  ++ "\nTemporal extent: " ++ strFalsyOr a.extentTemporal "Not specified"
  ++ "\n\nPlease provide analysis on:\n"
  ++ "1. Scientific significance of this dataset\n"
  ++ "2. Geographic and temporal coverage\n"
  ++ "3. Species coverage and taxonomic scope\n"
  ++ "4. Research applications and value\n"
  ++ "5. Data quality and completeness assessment\n"
  ++ "6. Integration opportunities with other datasets\n"
  ++ "7. Conservation and management implications\n\n"
  ++ "Provide insights suitable for marine researchers and data managers."

/-- Base fragment of the `generateDatasetInsights` prompts (line 272):
direct interpolation, so an undefined record count prints "undefined". -/
def datasetInsightsBase (d : OBISDataset) : String :=
  "Dataset: " ++ d.title ++ " (" ++ jsUndefNat d.records ++ " records)"

/-- Prompt template of `generateDatasetSummary` (lines 309-321). -/
def datasetSummaryPrompt (d : OBISDataset) (analysis : String) : String :=
  "Create an executive summary for this OBIS dataset analysis:\n\nDataset: "
  ++ d.title
  ++ "\nRecords: " ++ jsUndefNat d.records
  ++ "\nAnalysis: " ++ analysis.take 500 ++ "...\n\n"
  ++ "Provide a 2-3 paragraph summary highlighting:\n"
  ++ "1. Dataset scope and scientific value\n"
  ++ "2. Key applications and research potential\n"
  ++ "3. Conservation and management relevance\n"
  ++ "4. Integration opportunities\n\n"
  ++ "Target audience: marine researchers and data managers."

/-- `OBISGeminiService.analyzeSpeciesDataWithAI` (lines 187-212): one
text-generation call on the overall-narrative prompt. -/
def analyzeSpeciesDataWithAI (key : String) (env : Env) (data : OBISResponse)
    (scientificName : Option String) : Res String :=
  generateContent key env (analyzeSpeciesDataPrompt data scientificName)

/-- `OBISGeminiService.generateDetailedInsights` (lines 238-269): five
sequential text-generation calls, one per aspect. -/
def generateDetailedInsights (key : String) (env : Env) (data : OBISResponse) : Res Insights :=
  bindR (generateContent key env (insightDiversityPrompt data)) fun species_diversity =>
  bindR (generateContent key env (insightGeoPrompt data)) fun geographic_distribution =>
  bindR (generateContent key env (insightConservationPrompt data)) fun conservation_status =>
  bindR (generateContent key env (insightEcoPrompt data)) fun ecological_significance =>
  bindR (generateContent key env (insightThreatsPrompt data)) fun threats_and_recommendations =>
  pureR ⟨species_diversity, geographic_distribution, conservation_status,
         ecological_significance, threats_and_recommendations⟩

/-- `OBISGeminiService.generateSummary` (lines 283-303). -/
def generateSummary (key : String) (env : Env) (data : OBISResponse)
    (analysis : String) (scientificName : Option String) : Res String :=
  generateContent key env (generateSummaryPrompt data analysis scientificName)

/-- Body of `searchSpeciesWithAI` before its `catch` block (lines
68-86): fetch, overall narrative, five aspect insights, summary,
assemble. -/
def searchSpeciesBody (key : String) (env : Env) (scientificName geometry : Option String)
    (limit : Nat) : Res EnhancedMarineAnalysis :=
  bindR (fetchOBISSpecies env scientificName geometry limit) fun obisData =>
  bindR (analyzeSpeciesDataWithAI key env obisData scientificName) fun aiAnalysis =>
  bindR (generateDetailedInsights key env obisData) fun insights =>
  bindR (generateSummary key env obisData aiAnalysis scientificName) fun summary =>
  pureR { obis_data := .response obisData, ai_analysis := aiAnalysis,
          insights := insights, summary := summary }

/-- `OBISGeminiService.searchSpeciesWithAI` (lines 63-91): the body
wrapped by the catch block rethrowing with the `Species analysis
failed: ` marker. -/
def searchSpeciesWithAI (key : String) (env : Env) (scientificName geometry : Option String)
    (limit : Nat) : Res EnhancedMarineAnalysis :=
  catchWrap "Species analysis failed: " (searchSpeciesBody key env scientificName geometry limit)

/-- The method named `analyzeDatasetWithAI` actually present on the
class prototype at runtime: the line-214 body (the line-93 definition
was replaced by this later one).  One text-generation call on the
metadata prompt, no OBIS fetch, no catch block, bare string result. -/
def analyzeDatasetWithAI (key : String) (env : Env) (a : DatasetArg) : Res String :=
  generateContent key env (datasetAnalysisPrompt a)

/-- `OBISGeminiService.generateDatasetInsights` (lines 271-281). -/
def generateDatasetInsights (key : String) (env : Env) (d : OBISDataset) : Res Insights :=
  bindR (generateContent key env (datasetInsightsBase d ++ " - Analyze expected species diversity patterns and taxonomic coverage.")) fun species_diversity =>
  bindR (generateContent key env (datasetInsightsBase d ++ " - Analyze geographic coverage and spatial distribution patterns.")) fun geographic_distribution =>
  bindR (generateContent key env (datasetInsightsBase d ++ " - Assess conservation value and implications.")) fun conservation_status =>
  bindR (generateContent key env (datasetInsightsBase d ++ " - Explain ecological significance and research value.")) fun ecological_significance =>
  bindR (generateContent key env (datasetInsightsBase d ++ " - Identify potential threats and research recommendations.")) fun threats_and_recommendations =>
  pureR ⟨species_diversity, geographic_distribution, conservation_status,
         ecological_significance, threats_and_recommendations⟩

/-- `OBISGeminiService.generateDatasetSummary` (lines 305-324). -/
def generateDatasetSummary (key : String) (env : Env) (d : OBISDataset)
    (analysis : String) : Res String :=
  generateContent key env (datasetSummaryPrompt d analysis)

/-- The line-93 public `analyzeDatasetWithAI` body as written in the
source — dead code at runtime, because the later line-214 definition of
the same name replaced it on the prototype.  Its inner
`this.analyzeDatasetWithAI(datasetData)` resolves to the runtime
(line-214) method applied to the fetched dataset object. -/
def analyzeDatasetWithAI_shadowed (key : String) (env : Env) (datasetId : String) :
    Res EnhancedMarineAnalysis :=
  catchWrap "Dataset analysis failed: "
    (bindR (fetchOBISDataset env datasetId) fun datasetData =>
     bindR (analyzeDatasetWithAI key env (.dataset datasetData)) fun aiAnalysis =>
     bindR (generateDatasetInsights key env datasetData) fun insights =>
     bindR (generateDatasetSummary key env datasetData aiAnalysis) fun summary =>
     pureR { obis_data := .dataset datasetData, ai_analysis := aiAnalysis,
             insights := insights, summary := summary })

/-- Body of `getMarineInsightsForRegion` before its catch block (lines
123-144): fetch fifty records for the geometry, one combined prompt,
return the generated text directly. -/
def regionBody (key : String) (env : Env) (geometry : String)
    (description : Option String) : Res String :=
  bindR (fetchOBISSpecies env none (some geometry) 50) fun regionData =>
  generateContent key env (regionPrompt geometry description regionData)

/-- `OBISGeminiService.getMarineInsightsForRegion` (lines 119-149). -/
def getMarineInsightsForRegion (key : String) (env : Env) (geometry : String)
    (description : Option String) : Res String :=
  catchWrap "Regional analysis failed: " (regionBody key env geometry description)

/-- Body of `quickSpeciesLookup` before its catch block (lines
329-345): fetch twenty records; zero total takes the general-knowledge
fallback prompt, otherwise the short-summary prompt. -/
def quickBody (key : String) (env : Env) (scientificName : String) : Res String :=
  bindR (fetchOBISSpecies env (some scientificName) none 20) fun data =>
  if data.total = 0 then
    generateContent key env (quickFallbackPrompt scientificName)
  else
    generateContent key env (quickPrompt scientificName data)

/-- `OBISGeminiService.quickSpeciesLookup` (lines 327-350). -/
def quickSpeciesLookup (key : String) (env : Env) (scientificName : String) : Res String :=
  catchWrap "Species lookup failed: " (quickBody key env scientificName)

/-- An environment whose text-generation service always succeeds,
answering prompt `p` with the single candidate `f p`. -/
def oracleEnv (occFn : Option String → Option String → Nat → OccResult)
    (dsFn : String → DsResult) (f : String → String) : Env :=
  { occ := occFn, ds := dsFn, gem := fun p => .ok [f p] }

/-- An environment whose text-generation service fails with message
`msg` exactly on the prompts selected by `bad`, and otherwise answers
with `f`. -/
def failEnv (occFn : Option String → Option String → Nat → OccResult)
    (dsFn : String → DsResult) (f : String → String) (bad : String → Bool)
    (msg : String) : Env :=
  { occ := occFn, ds := dsFn,
    gem := fun p => if bad p then .httpError (some msg) else .ok [f p] }

/-- Is a trace entry an OBIS (data-service) call? -/
def NetCall.isObis : NetCall → Bool
  | .obisOccurrence _ _ _ => true
  | .obisDataset _ => true
  | .gemini _ => false

/-- Is a trace entry an OBIS occurrence (record-fetch) call? -/
def NetCall.isOccurrence : NetCall → Bool
  | .obisOccurrence _ _ _ => true
  | _ => false

/-- Is a trace entry a text-generation call? -/
def NetCall.isGem : NetCall → Bool
  | .gemini _ => true
  | _ => false

/-- The prompts already issued when the five aspect prompts are
processed in order and the first `bad` one aborts the chain. -/
def issuedUntilFail (bad : String → Bool) : List String → List String
  | [] => []
  | p :: rest => if bad p then [p] else p :: issuedUntilFail bad rest

set_option maxRecDepth 100000

/-- A sample occurrence record, as the wire would deliver it. -/
def sampleRecord : Json :=
  .obj [("scientificName", .str "Sardinella longiceps"),
        ("decimalLatitude", .num "10.1"),
        ("decimalLongitude", .num "75.9")]

/-- Occurrence response with zero records. -/
def respZero : OBISResponse := ⟨0, [], 100, 0⟩

/-- Occurrence response with three records. -/
def respThree : OBISResponse := ⟨3, [sampleRecord, sampleRecord, sampleRecord], 100, 0⟩

/-- Data service with no occurrence records for any query. -/
def occZero : Option String → Option String → Nat → OccResult := fun _ _ _ => .ok respZero

/-- Data service with three occurrence records for every query. -/
def occThree : Option String → Option String → Nat → OccResult := fun _ _ _ => .ok respThree

/-- Dataset endpoint returning a fixed descriptor for every id. -/
def dsFixed : String → DsResult :=
  fun i => .ok ⟨i, "IndOBIS Dataset", none, none, none, some 5, none⟩

/-- Text-generation oracle answering every prompt with "T". -/
def genT : String → String := fun _ => "T"

/-- Environment: zero records available, text generation always succeeds. -/
def envZero : Env := oracleEnv occZero dsFixed genT

/-- Environment: three records available, text generation always succeeds. -/
def envThree : Env := oracleEnv occThree dsFixed genT

/-- Environment: three records available, every text-generation call
fails over HTTP with error message "boom". -/
def envBoom : Env := { occ := occThree, ds := dsFixed, gem := fun _ => .httpError (some "boom") }

/-- C2: the method named `analyzeDatasetWithAI` present on the prototype
at runtime is the later (line-214) definition; called on the exported
service with a raw dataset-id string — as `Datasets.tsx` line 121 and
`AIIntegration.tsx` line 130 do — it performs no OBIS fetch at all,
issues exactly one text-generation call whose prompt interpolates the
undefined metadata properties of the string, and fulfills with the bare
generated string (type `Res String`, not the structured
`EnhancedMarineAnalysis` its callers expect). -/
theorem datasetMethodShadowing (datasetId key : String)
    (occFn : Option String → Option String → Nat → OccResult)
    (dsFn : String → DsResult) (f : String → String)
    (hk : ¬ (key = "" ∨ key = "your-api-key-here")) :
    analyzeDatasetWithAI key (oracleEnv occFn dsFn f) (.str datasetId) =
      (.ok (f (datasetAnalysisPrompt (.str datasetId))),
       [.gemini (datasetAnalysisPrompt (.str datasetId))])
    ∧ datasetAnalysisPrompt (.str datasetId) =
      "Analyze this OBIS dataset as a marine biology expert:\n\nDataset: undefined\nID: undefined\nDescription: No description available\nRecords: Unknown\nSpatial extent: Not specified\nTemporal extent: Not specified\n\nPlease provide analysis on:\n1. Scientific significance of this dataset\n2. Geographic and temporal coverage\n3. Species coverage and taxonomic scope\n4. Research applications and value\n5. Data quality and completeness assessment\n6. Integration opportunities with other datasets\n7. Conservation and management implications\n\nProvide insights suitable for marine researchers and data managers." := by
  constructor
  · simp [analyzeDatasetWithAI, generateContent, oracleEnv, hk]
  · rfl

/-- C2 witness: concrete instantiation of `datasetMethodShadowing` at
dataset id "2462" with a valid API key. -/
theorem datasetMethodShadowing_witness :
    analyzeDatasetWithAI "k" (oracleEnv occThree dsFixed genT) (.str "2462") =
      (.ok (genT (datasetAnalysisPrompt (.str "2462"))),
       [.gemini (datasetAnalysisPrompt (.str "2462"))])
    ∧ datasetAnalysisPrompt (.str "2462") =
      "Analyze this OBIS dataset as a marine biology expert:\n\nDataset: undefined\nID: undefined\nDescription: No description available\nRecords: Unknown\nSpatial extent: Not specified\nTemporal extent: Not specified\n\nPlease provide analysis on:\n1. Scientific significance of this dataset\n2. Geographic and temporal coverage\n3. Species coverage and taxonomic scope\n4. Research applications and value\n5. Data quality and completeness assessment\n6. Integration opportunities with other datasets\n7. Conservation and management implications\n\nProvide insights suitable for marine researchers and data managers." :=
  datasetMethodShadowing "2462" "k" occThree dsFixed genT (by decide)

/-- C1: with occurrence records available for every query (environment
`envThree`), dataset analysis still generates its narrative purely from
metadata.  The runtime `analyzeDatasetWithAI` issues zero data-service
calls of any kind — its single prompt is the metadata template, which
does not even depend on the dataset id — and even the dead line-93
pipeline (`analyzeDatasetWithAI_shadowed`) fetches only dataset
metadata, never a page of occurrence records, before prompting.  This
contradicts the specified (corrected) contract that narrative
generation be conditioned on a fetched record sample whenever one
exists. -/
theorem datasetAnalysisMetadataOnly :
    (analyzeDatasetWithAI "k" envThree (.str "1017")).2.countP NetCall.isObis = 0
    ∧ (analyzeDatasetWithAI "k" envThree (.str "1017")).2 =
        [.gemini (datasetAnalysisPrompt (.str "1017"))]
    ∧ (∃ a, (analyzeDatasetWithAI "k" envThree (.str "1017")).1 = .ok a)
    ∧ datasetAnalysisPrompt (.str "1017") = datasetAnalysisPrompt (.str "8888")
    ∧ (analyzeDatasetWithAI_shadowed "k" envThree "1017").2.countP NetCall.isOccurrence = 0
    ∧ (∃ a, (analyzeDatasetWithAI_shadowed "k" envThree "1017").1 = .ok a) := by
  refine ⟨?_, ?_, ?_, rfl, ?_, ?_⟩
  · simp [analyzeDatasetWithAI, generateContent, envThree, oracleEnv,
      List.countP, List.countP.go, NetCall.isObis]
  · simp [analyzeDatasetWithAI, generateContent, envThree, oracleEnv]
  · exact ⟨_, rfl⟩
  · simp [analyzeDatasetWithAI_shadowed, analyzeDatasetWithAI, generateContent, catchWrap,
      bindR, pureR, fetchOBISDataset, generateDatasetInsights, generateDatasetSummary,
      envThree, oracleEnv, dsFixed, List.countP, List.countP.go, NetCall.isOccurrence]
  · exact ⟨_, rfl⟩

/-- C10: the three orchestrator operations that keep their catch blocks
rethrow every escaping error with their fixed operation marker
prepended to the underlying message, but the runtime
`analyzeDatasetWithAI` — the line-214 body, which has no catch block,
the wrapping line-93 body being shadowed — lets the underlying error
escape with no `Dataset analysis failed: ` marker, contradicting the
wrapping contract for the dataset operation. -/
theorem errorMessageWrapping :
    (searchSpeciesWithAI "k" envBoom (some "Orcinus orca") none 100).1 =
      .error ⟨"Species analysis failed: Gemini API Error: boom"⟩
    ∧ (getMarineInsightsForRegion "k" envBoom "POLYGON((72 8, 78 8, 78 14, 72 8))" none).1 =
      .error ⟨"Regional analysis failed: Gemini API Error: boom"⟩
    ∧ (quickSpeciesLookup "k" envBoom "Orcinus orca").1 =
      .error ⟨"Species lookup failed: Gemini API Error: boom"⟩
    ∧ (analyzeDatasetWithAI "k" envBoom (.str "2462")).1 =
      .error ⟨"Gemini API Error: boom"⟩ := by
  refine ⟨?_, ?_, ?_, ?_⟩ <;>
    simp [searchSpeciesWithAI, searchSpeciesBody, getMarineInsightsForRegion, regionBody,
      quickSpeciesLookup, quickBody, analyzeDatasetWithAI, catchWrap, bindR, pureR,
      fetchOBISSpecies, analyzeSpeciesDataWithAI, generateDetailedInsights, generateSummary,
      generateContent, envBoom, occThree, respThree, dsFixed, strFalsyOr]

/-- C3 counterexample: with the data service returning zero occurrence
records and every text-generation call succeeding, `searchSpeciesWithAI`
does not issue a single general-knowledge fallback prompt: it issues the
full set of seven data-driven prompts (overall narrative, five aspects,
summary) over the empty sample, refuting the claimed fallback behavior
of `analyzeSpecies`. -/
theorem speciesZeroRecordsNoFallback_cex :
    searchSpeciesWithAI "k" envZero (some "Latimeria chalumnae") none 100 =
      (.ok { obis_data := .response respZero,
             ai_analysis := "T",
             insights := ⟨"T", "T", "T", "T", "T"⟩,
             summary := "T" },
       [.obisOccurrence (some "Latimeria chalumnae") none 100,
        .gemini (analyzeSpeciesDataPrompt respZero (some "Latimeria chalumnae")),
        .gemini (insightDiversityPrompt respZero),
        .gemini (insightGeoPrompt respZero),
        .gemini (insightConservationPrompt respZero),
        .gemini (insightEcoPrompt respZero),
        .gemini (insightThreatsPrompt respZero),
        .gemini (generateSummaryPrompt respZero "T" (some "Latimeria chalumnae"))])
    ∧ (searchSpeciesWithAI "k" envZero (some "Latimeria chalumnae") none 100).2.countP
        NetCall.isGem = 7 := by
  constructor
  · simp [searchSpeciesWithAI, searchSpeciesBody, catchWrap, bindR, pureR, fetchOBISSpecies,
      analyzeSpeciesDataWithAI, generateDetailedInsights, generateSummary, generateContent,
      envZero, oracleEnv, occZero, genT]
  · simp [searchSpeciesWithAI, searchSpeciesBody, catchWrap, bindR, pureR, fetchOBISSpecies,
      analyzeSpeciesDataWithAI, generateDetailedInsights, generateSummary, generateContent,
      envZero, oracleEnv, occZero, genT, List.countP, List.countP.go, NetCall.isGem]

/-- C3 amended: when the data service returns zero occurrence records,
`searchSpeciesWithAI` does not raise an error, but it does not take a
fallback path either — it issues the same seven data-driven prompts
over the empty sample and returns a structured result; the single
general-knowledge fallback prompt on zero records exists only in
`quickSpeciesLookup`. -/
theorem speciesZeroRecordsBehavior
    (occFn : Option String → Option String → Nat → OccResult)
    (dsFn : String → DsResult) (f : String → String) (key : String)
    (n g : Option String) (l : Nat) (sp : String) (r : OBISResponse)
    (hk : ¬ (key = "" ∨ key = "your-api-key-here"))
    (hocc : occFn n g l = .ok r) (htot : r.total = 0)
    (hq : occFn (some sp) none 20 = .ok r) :
    (∃ a, (searchSpeciesWithAI key (oracleEnv occFn dsFn f) n g l).1 = .ok a)
    ∧ (searchSpeciesWithAI key (oracleEnv occFn dsFn f) n g l).2.countP NetCall.isGem = 7
    ∧ quickSpeciesLookup key (oracleEnv occFn dsFn f) sp =
        (.ok (f (quickFallbackPrompt sp)),
         [.obisOccurrence (some sp) none 20, .gemini (quickFallbackPrompt sp)]) := by
  refine ⟨?_, ?_, ?_⟩
  · refine ⟨{ obis_data := .response r,
              ai_analysis := f (analyzeSpeciesDataPrompt r n),
              insights := ⟨f (insightDiversityPrompt r), f (insightGeoPrompt r),
                           f (insightConservationPrompt r), f (insightEcoPrompt r),
                           f (insightThreatsPrompt r)⟩,
              summary := f (generateSummaryPrompt r (f (analyzeSpeciesDataPrompt r n)) n) }, ?_⟩
    simp [searchSpeciesWithAI, searchSpeciesBody, catchWrap, bindR, pureR,
      fetchOBISSpecies, analyzeSpeciesDataWithAI, generateDetailedInsights, generateSummary,
      generateContent, oracleEnv, hocc, hk]
  · simp [searchSpeciesWithAI, searchSpeciesBody, catchWrap, bindR, pureR, fetchOBISSpecies,
      analyzeSpeciesDataWithAI, generateDetailedInsights, generateSummary, generateContent,
      oracleEnv, hocc, hk, List.countP, List.countP.go, NetCall.isGem]
  · simp [quickSpeciesLookup, quickBody, catchWrap, bindR, pureR, fetchOBISSpecies,
      generateContent, oracleEnv, hq, htot, hk]

/-- C3 witness: concrete instantiation of `speciesZeroRecordsBehavior`
in the zero-record environment. -/
theorem speciesZeroRecordsBehavior_witness :
    (∃ a, (searchSpeciesWithAI "k" (oracleEnv occZero dsFixed genT)
        (some "Latimeria chalumnae") none 100).1 = .ok a)
    ∧ (searchSpeciesWithAI "k" (oracleEnv occZero dsFixed genT)
        (some "Latimeria chalumnae") none 100).2.countP NetCall.isGem = 7
    ∧ quickSpeciesLookup "k" (oracleEnv occZero dsFixed genT) "Latimeria chalumnae" =
        (.ok (genT (quickFallbackPrompt "Latimeria chalumnae")),
         [.obisOccurrence (some "Latimeria chalumnae") none 20,
          .gemini (quickFallbackPrompt "Latimeria chalumnae")]) :=
  speciesZeroRecordsBehavior occZero dsFixed genT "k" (some "Latimeria chalumnae") none 100
    "Latimeria chalumnae" respZero (by decide) rfl rfl rfl

/-- C4 counterexample: with the API key equal to the documented
placeholder, `searchSpeciesWithAI` still issues one call to the
biodiversity data service before rejecting with the configuration
error, refuting the claim that zero data-service calls are made. -/
theorem placeholderKeyStillFetches_cex :
    searchSpeciesWithAI "your-api-key-here" envThree (some "Tursiops truncatus") none 100 =
      (.error ⟨"Species analysis failed: Please set your Gemini API key in the environment variables"⟩,
       [.obisOccurrence (some "Tursiops truncatus") none 100])
    ∧ (searchSpeciesWithAI "your-api-key-here" envThree
        (some "Tursiops truncatus") none 100).2.countP NetCall.isObis = 1 := by
  constructor
  · simp [searchSpeciesWithAI, searchSpeciesBody, catchWrap, bindR, pureR, fetchOBISSpecies,
      analyzeSpeciesDataWithAI, generateDetailedInsights, generateSummary, generateContent,
      envThree, oracleEnv, occThree]
  · simp [searchSpeciesWithAI, searchSpeciesBody, catchWrap, bindR, pureR, fetchOBISSpecies,
      analyzeSpeciesDataWithAI, generateDetailedInsights, generateSummary, generateContent,
      envThree, oracleEnv, occThree, List.countP, List.countP.go, NetCall.isObis]

/-- C4 amended: with a missing or placeholder API key every orchestrator
operation rejects with the configuration error and issues zero
text-generation calls, but the key check runs inside `generateContent`
rather than at operation entry, so the data-service fetch that precedes
the first text-generation call is still issued: one occurrence fetch for
the species, region and quick-lookup operations (assuming that fetch
succeeds), and zero network calls only for the runtime dataset
operation, which skips its data fetch entirely. -/
theorem configErrorBeforeTextGen (env : Env) (key : String)
    (n g : Option String) (l : Nat) (datasetId gm sp : String)
    (descr : Option String) (r : OBISResponse)
    (hkey : key = "" ∨ key = "your-api-key-here") :
    (env.occ n g l = .ok r →
      searchSpeciesWithAI key env n g l =
        (.error ⟨"Species analysis failed: Please set your Gemini API key in the environment variables"⟩,
         [.obisOccurrence n g l]))
    ∧ analyzeDatasetWithAI key env (.str datasetId) =
        (.error ⟨"Please set your Gemini API key in the environment variables"⟩, [])
    ∧ (env.occ none (some gm) 50 = .ok r →
      getMarineInsightsForRegion key env gm descr =
        (.error ⟨"Regional analysis failed: Please set your Gemini API key in the environment variables"⟩,
         [.obisOccurrence none (some gm) 50]))
    ∧ (env.occ (some sp) none 20 = .ok r →
      quickSpeciesLookup key env sp =
        (.error ⟨"Species lookup failed: Please set your Gemini API key in the environment variables"⟩,
         [.obisOccurrence (some sp) none 20])) := by
  refine ⟨fun hocc => ?_, ?_, fun hocc => ?_, fun hocc => ?_⟩
  · simp [searchSpeciesWithAI, searchSpeciesBody, catchWrap, bindR, pureR, fetchOBISSpecies,
      analyzeSpeciesDataWithAI, generateContent, hocc, hkey]
  · simp [analyzeDatasetWithAI, generateContent, hkey]
  · simp [getMarineInsightsForRegion, regionBody, catchWrap, bindR, pureR, fetchOBISSpecies,
      generateContent, hocc, hkey]
  · by_cases hr : r.total = 0 <;>
      simp [quickSpeciesLookup, quickBody, catchWrap, bindR, pureR, fetchOBISSpecies,
        generateContent, hocc, hkey, hr]

/-- C4 witness: concrete instantiation of `configErrorBeforeTextGen`
with the placeholder key in the three-record environment. -/
theorem configErrorBeforeTextGen_witness :
    (envThree.occ (some "Tursiops truncatus") none 100 = .ok respThree →
      searchSpeciesWithAI "your-api-key-here" envThree (some "Tursiops truncatus") none 100 =
        (.error ⟨"Species analysis failed: Please set your Gemini API key in the environment variables"⟩,
         [.obisOccurrence (some "Tursiops truncatus") none 100]))
    ∧ analyzeDatasetWithAI "your-api-key-here" envThree (.str "2462") =
        (.error ⟨"Please set your Gemini API key in the environment variables"⟩, [])
    ∧ (envThree.occ none (some "POLYGON((72 8, 78 8, 78 14, 72 8))") 50 = .ok respThree →
      getMarineInsightsForRegion "your-api-key-here" envThree
          "POLYGON((72 8, 78 8, 78 14, 72 8))" none =
        (.error ⟨"Regional analysis failed: Please set your Gemini API key in the environment variables"⟩,
         [.obisOccurrence none (some "POLYGON((72 8, 78 8, 78 14, 72 8))") 50]))
    ∧ (envThree.occ (some "Tursiops truncatus") none 20 = .ok respThree →
      quickSpeciesLookup "your-api-key-here" envThree "Tursiops truncatus" =
        (.error ⟨"Species lookup failed: Please set your Gemini API key in the environment variables"⟩,
         [.obisOccurrence (some "Tursiops truncatus") none 20])) :=
  configErrorBeforeTextGen envThree "your-api-key-here" (some "Tursiops truncatus") none 100
    "2462" "POLYGON((72 8, 78 8, 78 14, 72 8))" "Tursiops truncatus" none respThree
    (Or.inr rfl)

/-- C5: in `searchSpeciesWithAI` a failing text-generation call aborts
the whole analysis.  With the text-generation service failing exactly on
the prompts selected by `bad`: if the overall-narrative call fails, no
further prompt is issued; if it succeeds and some aspect call fails, the
prompts issued stop at the first failing aspect (the later aspects and
the summary are never issued); if only the summary call fails, it is the
last call.  In every case the operation rejects with the wrapped error
and no partial `EnhancedMarineAnalysis` is returned (the outcome is an
`Except.error`, which carries no result object). -/
theorem speciesTextGenFailureAborts
    (occFn : Option String → Option String → Nat → OccResult)
    (dsFn : String → DsResult) (f : String → String) (bad : String → Bool)
    (msg key : String) (n g : Option String) (l : Nat) (r : OBISResponse)
    (hk : ¬ (key = "" ∨ key = "your-api-key-here"))
    (hocc : occFn n g l = .ok r)
    (hmsg : ¬ msg = "") :
    (bad (analyzeSpeciesDataPrompt r n) = true →
      searchSpeciesWithAI key (failEnv occFn dsFn f bad msg) n g l =
        (.error ⟨"Species analysis failed: " ++ ("Gemini API Error: " ++ msg)⟩,
         [.obisOccurrence n g l, .gemini (analyzeSpeciesDataPrompt r n)]))
    ∧ (bad (analyzeSpeciesDataPrompt r n) = false →
       (aspectPrompts r).any bad = true →
      searchSpeciesWithAI key (failEnv occFn dsFn f bad msg) n g l =
        (.error ⟨"Species analysis failed: " ++ ("Gemini API Error: " ++ msg)⟩,
         .obisOccurrence n g l :: .gemini (analyzeSpeciesDataPrompt r n)
           :: (issuedUntilFail bad (aspectPrompts r)).map .gemini))
    ∧ (bad (analyzeSpeciesDataPrompt r n) = false →
       (aspectPrompts r).all (fun p => ! bad p) = true →
       bad (generateSummaryPrompt r (f (analyzeSpeciesDataPrompt r n)) n) = true →
      searchSpeciesWithAI key (failEnv occFn dsFn f bad msg) n g l =
        (.error ⟨"Species analysis failed: " ++ ("Gemini API Error: " ++ msg)⟩,
         .obisOccurrence n g l :: ((analyzeSpeciesDataPrompt r n :: aspectPrompts r)
           ++ [generateSummaryPrompt r (f (analyzeSpeciesDataPrompt r n)) n]).map .gemini)) := by
  refine ⟨fun h0 => ?_, fun h0 hAny => ?_, fun h0 hAll hsum => ?_⟩
  · simp [searchSpeciesWithAI, searchSpeciesBody, catchWrap, bindR, pureR, fetchOBISSpecies,
      analyzeSpeciesDataWithAI, generateDetailedInsights, generateSummary, generateContent,
      failEnv, hocc, hk, h0, strFalsyOr, hmsg]
  · simp only [aspectPrompts, List.any_cons, List.any_nil, Bool.or_eq_true] at hAny
    rcases hb1 : bad (insightDiversityPrompt r) with _ | _
    case true =>
      simp [searchSpeciesWithAI, searchSpeciesBody, catchWrap, bindR, pureR, fetchOBISSpecies,
        analyzeSpeciesDataWithAI, generateDetailedInsights, generateSummary, generateContent,
        failEnv, hocc, hk, h0, hb1, strFalsyOr, hmsg, issuedUntilFail, aspectPrompts]
    case false =>
    rcases hb2 : bad (insightGeoPrompt r) with _ | _
    case true =>
      simp [searchSpeciesWithAI, searchSpeciesBody, catchWrap, bindR, pureR, fetchOBISSpecies,
        analyzeSpeciesDataWithAI, generateDetailedInsights, generateSummary, generateContent,
        failEnv, hocc, hk, h0, hb1, hb2, strFalsyOr, hmsg, issuedUntilFail, aspectPrompts]
    case false =>
    rcases hb3 : bad (insightConservationPrompt r) with _ | _
    case true =>
      simp [searchSpeciesWithAI, searchSpeciesBody, catchWrap, bindR, pureR, fetchOBISSpecies,
        analyzeSpeciesDataWithAI, generateDetailedInsights, generateSummary, generateContent,
        failEnv, hocc, hk, h0, hb1, hb2, hb3, strFalsyOr, hmsg, issuedUntilFail, aspectPrompts]
    case false =>
    rcases hb4 : bad (insightEcoPrompt r) with _ | _
    case true =>
      simp [searchSpeciesWithAI, searchSpeciesBody, catchWrap, bindR, pureR, fetchOBISSpecies,
        analyzeSpeciesDataWithAI, generateDetailedInsights, generateSummary, generateContent,
        failEnv, hocc, hk, h0, hb1, hb2, hb3, hb4, strFalsyOr, hmsg, issuedUntilFail, aspectPrompts]
    case false =>
    rcases hb5 : bad (insightThreatsPrompt r) with _ | _
    case true =>
      simp [searchSpeciesWithAI, searchSpeciesBody, catchWrap, bindR, pureR, fetchOBISSpecies,
        analyzeSpeciesDataWithAI, generateDetailedInsights, generateSummary, generateContent,
        failEnv, hocc, hk, h0, hb1, hb2, hb3, hb4, hb5, strFalsyOr, hmsg, issuedUntilFail,
        aspectPrompts]
    case false =>
      simp [hb1, hb2, hb3, hb4, hb5] at hAny
  · simp only [aspectPrompts, List.all_cons, List.all_nil, Bool.and_eq_true,
      Bool.not_eq_true'] at hAll
    obtain ⟨hb1, hb2, hb3, hb4, ⟨hb5, -⟩⟩ := hAll
    simp [searchSpeciesWithAI, searchSpeciesBody, catchWrap, bindR, pureR, fetchOBISSpecies,
      analyzeSpeciesDataWithAI, generateDetailedInsights, generateSummary, generateContent,
      failEnv, hocc, hk, h0, hb1, hb2, hb3, hb4, hb5, hsum, strFalsyOr, hmsg,
      issuedUntilFail, aspectPrompts]

/-- C5 witness: with a text-generation service failing on every prompt,
the first (overall narrative) call fails, the operation rejects with the
wrapped error and only that one prompt was ever issued. -/
theorem speciesTextGenFailureAborts_witness :
    searchSpeciesWithAI "k" (failEnv occZero dsFixed genT (fun _ => true) "boom")
        (some "Sardinella longiceps") none 100 =
      (.error ⟨"Species analysis failed: " ++ ("Gemini API Error: " ++ "boom")⟩,
       [.obisOccurrence (some "Sardinella longiceps") none 100,
        .gemini (analyzeSpeciesDataPrompt respZero (some "Sardinella longiceps"))]) :=
  (speciesTextGenFailureAborts occZero dsFixed genT (fun _ => true) "boom" "k"
    (some "Sardinella longiceps") none 100 respZero (by decide) rfl (by decide)).1 rfl

/-- C6: a successful `searchSpeciesWithAI` run embeds the fetched
occurrence response itself, unmodified, as the `obis_data` field of the
returned `EnhancedMarineAnalysis` — so the embedded record count
`obis_data.total` is exactly what the data service reported — and every
narrative field is the text-generation output for the corresponding
prompt, hence non-empty whenever the text-generation service produces
non-empty passages. -/
theorem speciesResultEmbedsExactPayload
    (occFn : Option String → Option String → Nat → OccResult)
    (dsFn : String → DsResult) (f : String → String) (key : String)
    (n g : Option String) (l : Nat) (r : OBISResponse)
    (hk : ¬ (key = "" ∨ key = "your-api-key-here"))
    (hocc : occFn n g l = .ok r) (htot : 1 ≤ r.total) :
    searchSpeciesWithAI key (oracleEnv occFn dsFn f) n g l =
      (.ok { obis_data := .response r,
             ai_analysis := f (analyzeSpeciesDataPrompt r n),
             insights := ⟨f (insightDiversityPrompt r), f (insightGeoPrompt r),
                          f (insightConservationPrompt r), f (insightEcoPrompt r),
                          f (insightThreatsPrompt r)⟩,
             summary := f (generateSummaryPrompt r (f (analyzeSpeciesDataPrompt r n)) n) },
       [.obisOccurrence n g l,
        .gemini (analyzeSpeciesDataPrompt r n),
        .gemini (insightDiversityPrompt r),
        .gemini (insightGeoPrompt r),
        .gemini (insightConservationPrompt r),
        .gemini (insightEcoPrompt r),
        .gemini (insightThreatsPrompt r),
        .gemini (generateSummaryPrompt r (f (analyzeSpeciesDataPrompt r n)) n)])
    ∧ ((∀ p, f p ≠ "") →
        f (analyzeSpeciesDataPrompt r n) ≠ ""
        ∧ f (insightDiversityPrompt r) ≠ ""
        ∧ f (insightGeoPrompt r) ≠ ""
        ∧ f (insightConservationPrompt r) ≠ ""
        ∧ f (insightEcoPrompt r) ≠ ""
        ∧ f (insightThreatsPrompt r) ≠ ""
        ∧ f (generateSummaryPrompt r (f (analyzeSpeciesDataPrompt r n)) n) ≠ "") := by
  constructor
  · simp [searchSpeciesWithAI, searchSpeciesBody, catchWrap, bindR, pureR, fetchOBISSpecies,
      analyzeSpeciesDataWithAI, generateDetailedInsights, generateSummary, generateContent,
      oracleEnv, hocc, hk]
  · exact fun hf => ⟨hf _, hf _, hf _, hf _, hf _, hf _, hf _⟩

/-- C6 witness: concrete instantiation of
`speciesResultEmbedsExactPayload` in the three-record environment. -/
theorem speciesResultEmbedsExactPayload_witness :
    searchSpeciesWithAI "k" (oracleEnv occThree dsFixed genT)
        (some "Sardinella longiceps") none 100 =
      (.ok { obis_data := .response respThree,
             ai_analysis := genT (analyzeSpeciesDataPrompt respThree (some "Sardinella longiceps")),
             insights := ⟨genT (insightDiversityPrompt respThree),
                          genT (insightGeoPrompt respThree),
                          genT (insightConservationPrompt respThree),
                          genT (insightEcoPrompt respThree),
                          genT (insightThreatsPrompt respThree)⟩,
             summary := genT (generateSummaryPrompt respThree
               (genT (analyzeSpeciesDataPrompt respThree (some "Sardinella longiceps")))
               (some "Sardinella longiceps")) },
       [.obisOccurrence (some "Sardinella longiceps") none 100,
        .gemini (analyzeSpeciesDataPrompt respThree (some "Sardinella longiceps")),
        .gemini (insightDiversityPrompt respThree),
        .gemini (insightGeoPrompt respThree),
        .gemini (insightConservationPrompt respThree),
        .gemini (insightEcoPrompt respThree),
        .gemini (insightThreatsPrompt respThree),
        .gemini (generateSummaryPrompt respThree
          (genT (analyzeSpeciesDataPrompt respThree (some "Sardinella longiceps")))
          (some "Sardinella longiceps"))])
    ∧ ((∀ p, genT p ≠ "") →
        genT (analyzeSpeciesDataPrompt respThree (some "Sardinella longiceps")) ≠ ""
        ∧ genT (insightDiversityPrompt respThree) ≠ ""
        ∧ genT (insightGeoPrompt respThree) ≠ ""
        ∧ genT (insightConservationPrompt respThree) ≠ ""
        ∧ genT (insightEcoPrompt respThree) ≠ ""
        ∧ genT (insightThreatsPrompt respThree) ≠ ""
        ∧ genT (generateSummaryPrompt respThree
            (genT (analyzeSpeciesDataPrompt respThree (some "Sardinella longiceps")))
            (some "Sardinella longiceps")) ≠ "") :=
  speciesResultEmbedsExactPayload occThree dsFixed genT "k" (some "Sardinella longiceps")
    none 100 respThree (by decide) rfl (by decide)

/-- C7: `getMarineInsightsForRegion` fetches occurrence records filtered
by the geometry with a sample limit of 50 (tens, not hundreds — the
species default is 100), issues exactly one combined narrative prompt
(no five-aspect breakdown), and fulfills with the generated text as a
bare string, not an `EnhancedMarineAnalysis`. -/
theorem regionAnalysisShape
    (occFn : Option String → Option String → Nat → OccResult)
    (dsFn : String → DsResult) (f : String → String) (key gm : String)
    (descr : Option String) (r : OBISResponse)
    (hk : ¬ (key = "" ∨ key = "your-api-key-here"))
    (hocc : occFn none (some gm) 50 = .ok r) :
    getMarineInsightsForRegion key (oracleEnv occFn dsFn f) gm descr =
      (.ok (f (regionPrompt gm descr r)),
       [.obisOccurrence none (some gm) 50, .gemini (regionPrompt gm descr r)])
    ∧ (getMarineInsightsForRegion key (oracleEnv occFn dsFn f) gm descr).2.countP
        NetCall.isGem = 1 := by
  constructor
  · simp [getMarineInsightsForRegion, regionBody, catchWrap, bindR, pureR, fetchOBISSpecies,
      generateContent, oracleEnv, hocc, hk]
  · simp [getMarineInsightsForRegion, regionBody, catchWrap, bindR, pureR, fetchOBISSpecies,
      generateContent, oracleEnv, hocc, hk, List.countP, List.countP.go, NetCall.isGem]

/-- C7 witness: concrete instantiation of `regionAnalysisShape`. -/
theorem regionAnalysisShape_witness :
    getMarineInsightsForRegion "k" (oracleEnv occThree dsFixed genT)
        "POLYGON((72 8, 78 8, 78 14, 72 8))" (some "Arabian Sea coast") =
      (.ok (genT (regionPrompt "POLYGON((72 8, 78 8, 78 14, 72 8))"
         (some "Arabian Sea coast") respThree)),
       [.obisOccurrence none (some "POLYGON((72 8, 78 8, 78 14, 72 8))") 50,
        .gemini (regionPrompt "POLYGON((72 8, 78 8, 78 14, 72 8))"
         (some "Arabian Sea coast") respThree)])
    ∧ (getMarineInsightsForRegion "k" (oracleEnv occThree dsFixed genT)
        "POLYGON((72 8, 78 8, 78 14, 72 8))" (some "Arabian Sea coast")).2.countP
        NetCall.isGem = 1 :=
  regionAnalysisShape occThree dsFixed genT "k" "POLYGON((72 8, 78 8, 78 14, 72 8))"
    (some "Arabian Sea coast") respThree (by decide) rfl

/-- C8: `quickSpeciesLookup` fetches a sample of 20 records (tens, not
hundreds); when the data service reports zero total records it issues
the single general-background-knowledge prompt, otherwise the single
short-summary prompt over the fetched sample; in both cases it fulfills
with the generated plain text, not a structured result object. -/
theorem quickLookupShape
    (occFn : Option String → Option String → Nat → OccResult)
    (dsFn : String → DsResult) (f : String → String) (key sp : String)
    (r : OBISResponse)
    (hk : ¬ (key = "" ∨ key = "your-api-key-here"))
    (hocc : occFn (some sp) none 20 = .ok r) :
    (r.total = 0 →
      quickSpeciesLookup key (oracleEnv occFn dsFn f) sp =
        (.ok (f (quickFallbackPrompt sp)),
         [.obisOccurrence (some sp) none 20, .gemini (quickFallbackPrompt sp)]))
    ∧ (r.total ≠ 0 →
      quickSpeciesLookup key (oracleEnv occFn dsFn f) sp =
        (.ok (f (quickPrompt sp r)),
         [.obisOccurrence (some sp) none 20, .gemini (quickPrompt sp r)])) := by
  refine ⟨fun h0 => ?_, fun h0 => ?_⟩ <;>
    simp [quickSpeciesLookup, quickBody, catchWrap, bindR, pureR, fetchOBISSpecies,
      generateContent, oracleEnv, hocc, hk, h0]

/-- C8 witness: concrete instantiation of `quickLookupShape` in the
zero-record environment, taking the fallback branch. -/
theorem quickLookupShape_witness :
    quickSpeciesLookup "k" (oracleEnv occZero dsFixed genT) "Chelonia mydas" =
      (.ok (genT (quickFallbackPrompt "Chelonia mydas")),
       [.obisOccurrence (some "Chelonia mydas") none 20,
        .gemini (quickFallbackPrompt "Chelonia mydas")]) :=
  (quickLookupShape occZero dsFixed genT "k" "Chelonia mydas" respZero
    (by decide) rfl).1 rfl

/-- Occurrence response used to witness prompt purity: same total and
record sample as `respPureB`, different page bookkeeping. -/
def respPureA : OBISResponse := ⟨7, [sampleRecord], 100, 0⟩

/-- Occurrence response differing from `respPureA` only in `limit` and
`offset`, which the prompt templates never mention. -/
def respPureB : OBISResponse := ⟨7, [sampleRecord], 50, 25⟩

/-- C9: building the analysis prompts is a pure function of its inputs:
the prompts depend only on the reported total, the retrieved-record
count and the serialized record sample (first five records for the
overall prompt, first ten for the aspect prompts), plus the query name
and, for the summary, the narrative text.  Two responses agreeing on
those inputs produce byte-identical prompt strings — there is no other
dependence, and in particular two evaluations on the same response are
trivially identical. -/
theorem analysisPromptsPure (d e : OBISResponse) (n : Option String)
    (htot : d.total = e.total)
    (hlen : d.results.length = e.results.length)
    (h10 : d.results.take 10 = e.results.take 10) :
    analyzeSpeciesDataPrompt d n = analyzeSpeciesDataPrompt e n
    ∧ insightDiversityPrompt d = insightDiversityPrompt e
    ∧ insightGeoPrompt d = insightGeoPrompt e
    ∧ insightConservationPrompt d = insightConservationPrompt e
    ∧ insightEcoPrompt d = insightEcoPrompt e
    ∧ insightThreatsPrompt d = insightThreatsPrompt e
    ∧ ∀ analysis, generateSummaryPrompt d analysis n = generateSummaryPrompt e analysis n := by
  have h5 : d.results.take 5 = e.results.take 5 := by
    have h := congrArg (List.take 5) h10
    simpa [List.take_take] using h
  refine ⟨?_, ?_, ?_, ?_, ?_, ?_, fun analysis => ?_⟩ <;>
    simp only [analyzeSpeciesDataPrompt, insightDiversityPrompt, insightGeoPrompt,
      insightConservationPrompt, insightEcoPrompt, insightThreatsPrompt,
      generateSummaryPrompt, insightSample, htot, hlen, h5, h10]

/-- C9 witness: two responses differing only in `limit`/`offset` (inputs
outside the template) produce byte-identical prompts. -/
theorem analysisPromptsPure_witness :
    analyzeSpeciesDataPrompt respPureA (some "Sardinella longiceps") =
      analyzeSpeciesDataPrompt respPureB (some "Sardinella longiceps")
    ∧ insightDiversityPrompt respPureA = insightDiversityPrompt respPureB
    ∧ insightGeoPrompt respPureA = insightGeoPrompt respPureB
    ∧ insightConservationPrompt respPureA = insightConservationPrompt respPureB
    ∧ insightEcoPrompt respPureA = insightEcoPrompt respPureB
    ∧ insightThreatsPrompt respPureA = insightThreatsPrompt respPureB
    ∧ ∀ analysis, generateSummaryPrompt respPureA analysis (some "Sardinella longiceps") =
        generateSummaryPrompt respPureB analysis (some "Sardinella longiceps") :=
  analysisPromptsPure respPureA respPureB (some "Sardinella longiceps") rfl rfl rfl
